import Mathlib

/-!
Verification of the Stripo editor integration layer.

This file gives a shallow embedding, in Lean 4, of the parts of the
repository that the verified properties speak about:

* the localStorage helpers and the email-id resolution of
  src/components/stripo-editor-customized.tsx (clearStripoStorage,
  getOrCreateEmailId, createHelloWorldTemplate and the emailId
  resolution section of initStripoEditor);
* the notification error handler passed to the editor;
* the token refresh callback (onTokenRefreshRequest), modelled as a
  trace of effects;
* the render watchdog polling loop (renderCheckInterval);
* the script loading step (loadStripoScript);
* the presentation patcher (applyPositioning, applyResponsiveStyling)
  together with the resize handler;
* the template detail API route
  src/app/api/stripo/templates/[templateId]/route.ts.

DOM state, localStorage and network results are made explicit function
arguments; machine effects (callback invocations, cache writes) are
recorded as events where ordering matters.
-/

namespace StripoEditor

/-- JavaScript style substring test on lists of characters: true when
`sub` occurs contiguously inside `s`. -/
def containsSub (s sub : List Char) : Bool :=
  sub.isPrefixOf s ||
    match s with
    | [] => false
    | _ :: t => containsSub t sub

/-- Model of the JavaScript `String.prototype.includes` method. -/
def strIncludes (s sub : String) : Bool :=
  containsSub s.toList sub.toList

/-- Character wise lower casing, modelling
`String.prototype.toLowerCase` on the ASCII strings this code compares. -/
def strToLower (s : String) : String :=
  String.mk (s.data.map Char.toLower)

/-- Model of browser localStorage: an association list of keys to
values, first binding wins on lookup. -/
abbrev Store := List (String × String)

/-- Model of `localStorage.getItem`. -/
def getItem : Store → String → Option String
  | [], _ => none
  | (k, v) :: rest, key => if k = key then some v else getItem rest key

/-- Model of `localStorage.setItem`: replace the binding when the key is
present, append otherwise. -/
def setItem : Store → String → String → Store
  | [], key, value => [(key, value)]
  | (k, v) :: rest, key, value =>
      if k = key then (key, value) :: rest else (k, v) :: setItem rest key value

/-- Model of `localStorage.removeItem`. -/
def removeItem (store : Store) (key : String) : Store :=
  store.filter (fun kv => !decide (kv.1 = key))

/-- JavaScript truthiness of a `string | null | undefined` value:
null/undefined and the empty string are falsy. -/
def truthy : Option String → Bool
  | none => false
  | some s => !s.isEmpty

/-- JavaScript `x || fallback` on a `string | null` value. -/
def jsOrElse (v : Option String) (fallback : String) : String :=
  match v with
  | some s => if s.isEmpty then fallback else s
  | none => fallback

/-- The loading state of the component
(src/components/stripo-editor-customized.tsx line 21). -/
inductive LoadingState
  | idle
  | loading
  | loaded
  | error
deriving DecidableEq, Repr

/-- The storage key for the email id
(src/components/stripo-editor-customized.tsx line 68). -/
def STORAGE_KEY : String := "stripo-email-id"

/-- Options of `clearStripoStorage`
(src/components/stripo-editor-customized.tsx lines 71 to 74). -/
structure ClearOptions where
  storageKey : String := STORAGE_KEY
  clearAll : Bool := false

/-- A key is Stripo related when its lower cased name contains the
substring stripo (src/components/stripo-editor-customized.tsx line 94). -/
def isStripoKey (key : String) : Bool :=
  strIncludes (strToLower key) "stripo"

/-- Embedding of `clearStripoStorage`
(src/components/stripo-editor-customized.tsx lines 71 to 113).
With `windowDefined = false` the function returns without touching the
store. With `clearAll = true` it collects every key whose lower cased
name contains stripo and removes exactly those. Otherwise it removes
the single given storage key. -/
def clearStripoStorage (windowDefined : Bool) (opts : ClearOptions) (store : Store) : Store :=
  if windowDefined = false then store
  else if opts.clearAll then
    store.filter (fun kv => !isStripoKey kv.1)
  else
    removeItem store opts.storageKey

/-- Embedding of `getOrCreateEmailId`
(src/components/stripo-editor-customized.tsx lines 153 to 191).
`fresh` stands for the freshly generated
`email-<timestamp>-<random>` string of line 183. When a stored id is
found it is returned and the store is untouched; otherwise the fresh id
is generated, written to the store at `STORAGE_KEY`, and returned. With
`windowDefined = false` the function returns null without any store
access. -/
def getOrCreateEmailId (windowDefined : Bool) (store : Store) (fresh : String) :
    Option String × Store :=
  if windowDefined = false then (none, store)
  else
    let storedEmailId := getItem store STORAGE_KEY
    if truthy storedEmailId then (storedEmailId, store)
    else (some fresh, setItem store STORAGE_KEY fresh)

/-- Embedding of `createHelloWorldTemplate`
(src/components/stripo-editor-customized.tsx lines 195 to 213): two
chained calls of `getOrCreateEmailId`, returning the first truthy
result. -/
def createHelloWorldTemplate (windowDefined : Bool) (store : Store)
    (fresh1 fresh2 : String) : Option String × Store :=
  let r1 := getOrCreateEmailId windowDefined store fresh1
  if truthy r1.1 then r1
  else getOrCreateEmailId windowDefined r1.2 fresh2

/-- Embedding of the emailId resolution section of `initStripoEditor`
(src/components/stripo-editor-customized.tsx lines 462 to 531):
start from the provided prop; when it is falsy consult
`createHelloWorldTemplate` (when `shouldCreateTemplate`) or
`getOrCreateEmailId`; when the result is still falsy fall back to
`getOrCreateEmailId() || fresh`. Returns the id handed to the editor
mount together with the store after the resolution. -/
def resolveEmailId (providedEmailId : Option String) (shouldCreateTemplate : Bool)
    (windowDefined : Bool) (store : Store) (fresh1 fresh2 fresh3 : String) :
    Option String × Store :=
  let step1 : Option String × Store :=
    if truthy providedEmailId = false then
      if shouldCreateTemplate then
        let r := createHelloWorldTemplate windowDefined store fresh1 fresh2
        (if truthy r.1 then r.1 else providedEmailId, r.2)
      else
        let r := getOrCreateEmailId windowDefined store fresh1
        (if truthy r.1 then r.1 else providedEmailId, r.2)
    else (providedEmailId, store)
  if truthy step1.1 = false then
    let r := getOrCreateEmailId windowDefined step1.2 fresh2
    (some (jsOrElse r.1 fresh3), r.2)
  else step1

/-- Classification of a notification by the error handler. -/
inductive NotifResult
  | suppressedPluginConfig
  | suppressedExpected
  | forwarded
deriving DecidableEq, Repr

/-- Embedding of the `notifications.error` handler supplied to the
editor (src/components/stripo-editor-customized.tsx lines 734 to 769).
`paramsJson` stands for `JSON.stringify(params || ...)`. The handler
reads the message only; the store and the loading state are threaded
through unchanged, because the handler body contains no storage
operation and no `setLoadingState` call. -/
def notificationsError (message paramsJson : String) (store : Store)
    (ls : LoadingState) : NotifResult × Store × LoadingState :=
  let messageStr := message
  let combinedMessage := strToLower (messageStr ++ " " ++ paramsJson)
  if strIncludes messageStr "403" || strIncludes combinedMessage "plugins/config" ||
      strIncludes combinedMessage "forbidden" then
    (NotifResult.suppressedPluginConfig, store, ls)
  else if strIncludes messageStr "connection" || strIncludes messageStr "limit" ||
      strIncludes messageStr "exceeded" then
    (NotifResult.suppressedExpected, store, ls)
  else
    (NotifResult.forwarded, store, ls)

/-- Result of the token fetch against /api/stripo/token. -/
inductive FetchResult
  | ok (token : String)
  | failed (message : String)
deriving DecidableEq, Repr

/-- Observable effects of the token refresh callback, in order. -/
inductive TokenEvent
  | callbackInvoked (token : String)
  | fetchStart
  | cacheWrite (token : String)
  | errorLogged (message : String)
  | loadingStateSet (s : LoadingState)
deriving DecidableEq, Repr

/-- Embedding of `onTokenRefreshRequest`
(src/components/stripo-editor-customized.tsx lines 666 to 728) as the
trace of its effects. With a cached token the callback is invoked first
(synchronously, before any fetch), then a background fetch runs whose
success only writes the cache and whose failure is only logged. Without
a cached token the fetch runs first; on success the cache is written and
then the callback invoked with the fetched token; on failure only a log
entry is produced and the callback is not invoked. -/
def onTokenRefreshRequest (cached : Option String) (fetch : FetchResult) :
    List TokenEvent :=
  match cached with
  | some t =>
      TokenEvent.callbackInvoked t ::
        TokenEvent.fetchStart ::
          (match fetch with
           | FetchResult.ok newToken => [TokenEvent.cacheWrite newToken]
           | FetchResult.failed m => [TokenEvent.errorLogged m])
  | none =>
      TokenEvent.fetchStart ::
        (match fetch with
         | FetchResult.ok token =>
             [TokenEvent.cacheWrite token, TokenEvent.callbackInvoked token]
         | FetchResult.failed m => [TokenEvent.errorLogged m])

/-- The cached token after replaying a trace over an initial cache. -/
def cacheAfter (cached : Option String) (events : List TokenEvent) : Option String :=
  events.foldl
    (fun c e => match e with | TokenEvent.cacheWrite t => some t | _ => c) cached

/-- The arguments of all callback invocations in a trace, in order. -/
def callbackArgs (events : List TokenEvent) : List String :=
  events.filterMap
    (fun e => match e with | TokenEvent.callbackInvoked t => some t | _ => none)

/-- The loading state writes in a trace. -/
def loadingWrites (events : List TokenEvent) : List LoadingState :=
  events.filterMap
    (fun e => match e with | TokenEvent.loadingStateSet s => some s | _ => none)

/-- Outcome of the render watchdog. -/
inductive RenderOutcome
  | rendered
  | timedOut
deriving DecidableEq, Repr

/-- One observation of the container on a watchdog tick: whether the
container ref is still there, the number of its children, and whether a
ui-editor element with a shadow root is present. -/
structure RenderObs where
  hasContainer : Bool
  childCount : Nat
  hasShadowRoot : Bool

/-- Result of a watchdog run: the outcome, the number of checks
performed, and the loading state set on exit. -/
structure WatchdogResult where
  outcome : RenderOutcome
  checks : Nat
  finalState : LoadingState
deriving DecidableEq, Repr

/-- Bound on the number of render checks
(src/components/stripo-editor-customized.tsx line 829). -/
def maxRenderChecks : Nat := 40

/-- Poll interval of the render watchdog in milliseconds
(src/components/stripo-editor-customized.tsx line 1474). -/
def renderCheckIntervalMs : Nat := 500

/-- Success condition of a render check
(src/components/stripo-editor-customized.tsx lines 834 to 849):
`hasContent = childCount > 0 || hasShadowRoot` and the tick succeeds
when `hasContent && hasShadowRoot`. -/
def renderSuccess (o : RenderObs) : Bool :=
  let hasContent := decide (0 < o.childCount) || o.hasShadowRoot
  hasContent && o.hasShadowRoot

/-- One tick of `renderCheckInterval`
(src/components/stripo-editor-customized.tsx lines 830 to 1474), run
until exit. `obs n` is the DOM observation of tick `n` (zero based);
`count` is the number of ticks already performed. Every exit path of the
source clears the interval and sets the loading state to loaded. The
`fuel` argument only serves Lean's termination checking; the driver
passes `maxRenderChecks`, and the count guard fires before fuel can run
out. -/
def watchdogFrom (obs : Nat → RenderObs) : Nat → Nat → WatchdogResult
  | 0, count => ⟨RenderOutcome.timedOut, count, LoadingState.loaded⟩
  | fuel + 1, count =>
      let c := count + 1
      let o := obs count
      if o.hasContainer && renderSuccess o then
        ⟨RenderOutcome.rendered, c, LoadingState.loaded⟩
      else if maxRenderChecks ≤ c then
        ⟨RenderOutcome.timedOut, c, LoadingState.loaded⟩
      else
        watchdogFrom obs fuel c

/-- A full watchdog run started right after `initEditor` returns. -/
def runRenderWatchdog (obs : Nat → RenderObs) : WatchdogResult :=
  watchdogFrom obs maxRenderChecks 0

/-- Document state relevant to script injection: ids of the script tags
present in the document, and whether the `window.UIEditor` global is
set. -/
structure DocState where
  scriptIds : List String
  uiEditorGlobal : Bool
deriving DecidableEq, Repr

/-- The stable id of the editor script tag
(src/components/stripo-editor-customized.tsx line 1868). -/
def uiEditorScriptId : String := "UiEditorScript"

/-- What one invocation of the loading step did. -/
inductive LoadScriptAction
  | initNow
  | pollForGlobal
  | injected
deriving DecidableEq, Repr

/-- Number of script tags carrying the editor script id. -/
def countScriptId : List String → Nat
  | [] => 0
  | i :: rest => (if i = uiEditorScriptId then 1 else 0) + countScriptId rest

/-- Presence test of the getElementById lookup for the UiEditorScript id
(src/components/stripo-editor-customized.tsx line 1820). -/
def hasScriptTag (d : DocState) : Bool :=
  d.scriptIds.any (fun i => i = uiEditorScriptId)

/-- Embedding of the check and insert portion of `loadStripoScript`
(src/components/stripo-editor-customized.tsx lines 1816 to 1921). The
element lookup and the insertion happen with no await between them, so
the step is atomic with respect to other invocations. An existing tag
with `window.UIEditor` set leads to initialization; an existing tag
without the global leads to polling; otherwise a script tag with the
stable id is appended. -/
def loadStripoScriptStep (d : DocState) : DocState × LoadScriptAction :=
  if hasScriptTag d then
    if d.uiEditorGlobal then (d, LoadScriptAction.initNow)
    else (d, LoadScriptAction.pollForGlobal)
  else
    ({ d with scriptIds := d.scriptIds ++ [uiEditorScriptId] }, LoadScriptAction.injected)

/-- `n` successive invocations of the loading step, returning the final
document and the actions taken. -/
def runLoadStripoScript : Nat → DocState → DocState × List LoadScriptAction
  | 0, d => (d, [])
  | n + 1, d =>
      let r1 := loadStripoScriptStep d
      let r2 := runLoadStripoScript n r1.1
      (r2.1, r1.2 :: r2.2)

/-- Number of injections among the recorded actions. -/
def countInjected (actions : List LoadScriptAction) : Nat :=
  actions.countP (fun a => a = LoadScriptAction.injected)

/-- Error body of the template detail route. -/
structure TemplateErrorBody where
  error : String
  details : Option String
  html : String
  css : String
deriving DecidableEq, Repr

/-- Result of the template detail GET handler, up to the point where a
remote fetch would start. -/
inductive TemplateGetResult
  | errorResponse (status : Nat) (body : TemplateErrorBody)
  | remoteFetch (templateId : String)
deriving DecidableEq, Repr

/-- The regular expression test of
src/app/api/stripo/templates/[templateId]/route.ts line 89: at least one
character and every character a decimal digit. -/
def isNumericId (templateId : String) : Bool :=
  !templateId.isEmpty && templateId.toList.all Char.isDigit

/-- The details text of the non numeric rejection
(src/app/api/stripo/templates/[templateId]/route.ts line 98). -/
def invalidFormatDetails (templateId : String) : String :=
  "Template ID " ++ templateId ++
    " is not a valid Stripo template ID. Stripo requires numeric template IDs. This appears to be a fallback template that cannot be fetched from the Stripo API. Please select a template from the Stripo API list."

/-- Embedding of the GET handler of
src/app/api/stripo/templates/[templateId]/route.ts (lines 69 to 104):
an empty id (falsy) or the literal blank is rejected with status 400,
then any id failing the digits test is rejected with status 400 and a
details text; only numeric ids proceed to the remote fetch. -/
def templateDetailGET (templateId : String) : TemplateGetResult :=
  if templateId = "" ∨ templateId = "blank" then
    TemplateGetResult.errorResponse 400 ⟨"Invalid template ID", none, "", ""⟩
  else if isNumericId templateId = false then
    TemplateGetResult.errorResponse 400
      ⟨"Invalid template ID format", some (invalidFormatDetails templateId), "", ""⟩
  else
    TemplateGetResult.remoteFetch templateId

/-- Inline style slots of one element touched by the patcher; `some v`
means the property carries the inline value `v` with the important
flag, `none` means the property is absent from the inline style (an
explicit removeProperty or never set). -/
structure Style where
  transform : Option String := none
  width : Option String := none
  minWidth : Option String := none
  display : Option String := none
  flexDirection : Option String := none
  flexWrap : Option String := none
deriving DecidableEq, Repr

/-- Structure of the opaque shadow subtree, as far as the patcher reads
it. All fields describe element lookups; inline style writes never
change this structure, so it is constant across patcher calls. -/
structure PanelTree where
  hasShadowRoot : Bool
  blocksPanelFound : Bool
  ancestorTags : List String
  simplePanelQueryFound : Bool
  modulesPanelFound : Bool
  widePanelFound : Bool
  narrowPanelFound : Bool
  thumbCount : Nat
  blockPanelContentFound : Bool
  blockPanelContentAltFound : Bool
deriving DecidableEq, Repr

/-- Mutable UI state touched by the patcher: one style slot per target
element plus the three panel visibility flags of the component. The
blocksParent slot is the immediate parent of the blocks panel (the
fallback target); the alt slot is the element matched by the
alternative block panel content selector. -/
structure EditorUIState where
  uiEditor : Style
  simplePanel : Style
  blocksParent : Style
  modulesPanel : Style
  widePanel : Style
  narrowPanel : Style
  blockPanelContent : Style
  blockPanelContentAlt : Style
  isSimplePanelVisible : Bool
  isModulesPanelVisible : Bool
  isWidePanelVisible : Bool
deriving DecidableEq, Repr

/-- Bound of the ancestor walk
(src/components/stripo-editor-customized.tsx line 960). -/
def maxDepth : Nat := 10

/-- The ancestor walk of
src/components/stripo-editor-customized.tsx lines 962 to 989: starting
from the parent of the blocks panel, inspect ancestors while the depth
stays below `maxDepth`, looking for the ue-ui-simple-panel tag.
`tags` lists the lower cased ancestor tag names, nearest first. -/
def findSimplePanelUp : List String → Nat → Bool
  | [], _ => false
  | tag :: rest, depth =>
      if depth < maxDepth then
        if tag = "ue-ui-simple-panel" then true
        else findSimplePanelUp rest (depth + 1)
      else false

/-- Embedding of the `applyResponsiveStyling` helper
(src/components/stripo-editor-customized.tsx lines 896 to 946): set the
transform (with a translateY component only at compact widths), and at
compact widths pin the width (400px for the simple panel, 100px
otherwise) while at wide widths remove the width override. -/
def applyResponsiveStyling (containerWidth : Nat) (elementName : String)
    (st : Style) : Style :=
  let transformValue :=
    if containerWidth ≤ 1200 then "translateX(10px) translateY(20px)"
    else "translateX(10px)"
  let st := { st with transform := some transformValue }
  if containerWidth ≤ 1200 then
    let widthValue := if elementName = "ue-ui-simple-panel" then "400px" else "100px"
    { st with width := some widthValue }
  else
    { st with width := none }

/-- Section one of `applyPositioning`
(src/components/stripo-editor-customized.tsx lines 869 to 893): the
min-width override on the ui-editor element, set to 0 at compact widths
and removed at wide widths. -/
def patchMinWidth (containerWidth : Nat) (s : EditorUIState) : EditorUIState :=
  if containerWidth ≤ 1200 then
    { s with uiEditor := { s.uiEditor with minWidth := some "0" } }
  else
    { s with uiEditor := { s.uiEditor with minWidth := none } }

/-- Section two of `applyPositioning`
(src/components/stripo-editor-customized.tsx lines 948 to 1039): find
the blocks panel, walk up to the simple panel; when found style it and
initialize its visibility; when the walk fails fall back to a transform
on the immediate parent when one exists. -/
def patchBlocksPanel (tree : PanelTree) (containerWidth : Nat)
    (s : EditorUIState) : EditorUIState :=
  if tree.blocksPanelFound then
    if findSimplePanelUp tree.ancestorTags 0 then
      if containerWidth ≤ 1200 then
        { s with
            simplePanel :=
              { applyResponsiveStyling containerWidth "ue-ui-simple-panel" s.simplePanel with
                  display := some "none" },
            isSimplePanelVisible := false }
      else
        { s with
            simplePanel :=
              { applyResponsiveStyling containerWidth "ue-ui-simple-panel" s.simplePanel with
                  display := none },
            isSimplePanelVisible := true }
    else
      if tree.ancestorTags.isEmpty then s
      else if containerWidth ≤ 1200 then
        { s with blocksParent :=
            { s.blocksParent with transform := some "translateX(10px) translateY(20px)" } }
      else
        { s with blocksParent :=
            { s.blocksParent with transform := some "translateX(10px)" } }
  else s

/-- Section three of `applyPositioning`
(src/components/stripo-editor-customized.tsx lines 1041 to 1070): style
the modules panel when found and initialize its visibility. -/
def patchModulesPanel (tree : PanelTree) (containerWidth : Nat)
    (s : EditorUIState) : EditorUIState :=
  if tree.modulesPanelFound then
    if containerWidth ≤ 1200 then
      { s with
          modulesPanel :=
            { applyResponsiveStyling containerWidth "ue-modules-panel-component" s.modulesPanel with
                display := some "none" },
          isModulesPanelVisible := false }
    else
      { s with
          modulesPanel :=
            { applyResponsiveStyling containerWidth "ue-modules-panel-component" s.modulesPanel with
                display := none },
          isModulesPanelVisible := true }
  else s

/-- Section four of `applyPositioning`
(src/components/stripo-editor-customized.tsx lines 1072 to 1097): hide
or show the wide panel when found. -/
def patchWidePanel (tree : PanelTree) (containerWidth : Nat)
    (s : EditorUIState) : EditorUIState :=
  if tree.widePanelFound then
    if containerWidth ≤ 1200 then
      { s with widePanel := { s.widePanel with display := some "none" },
               isWidePanelVisible := false }
    else
      { s with widePanel := { s.widePanel with display := none },
               isWidePanelVisible := true }
  else s

/-- Section five of `applyPositioning`
(src/components/stripo-editor-customized.tsx lines 1099 to 1164): on the
narrow panel, when block thumbs are present, apply the wrapping flex row
at compact widths and remove all three flex properties at wide widths. -/
def patchNarrowPanel (tree : PanelTree) (containerWidth : Nat)
    (s : EditorUIState) : EditorUIState :=
  if tree.narrowPanelFound then
    if 0 < tree.thumbCount then
      if containerWidth ≤ 1200 then
        { s with narrowPanel :=
            { s.narrowPanel with display := some "flex",
                                 flexDirection := some "row",
                                 flexWrap := some "wrap" } }
      else
        { s with narrowPanel :=
            { s.narrowPanel with display := none,
                                 flexDirection := none,
                                 flexWrap := none } }
    else s
  else s

/-- Section six of `applyPositioning`
(src/components/stripo-editor-customized.tsx lines 1166 to 1258): the
block panel content flex layout, on the element matched by the primary
selector when found, otherwise on the element matched by the
alternative selector when that one is found. -/
def patchBlockPanelContent (tree : PanelTree) (containerWidth : Nat)
    (s : EditorUIState) : EditorUIState :=
  if tree.blockPanelContentFound then
    if containerWidth ≤ 1200 then
      { s with blockPanelContent :=
          { s.blockPanelContent with display := some "flex",
                                     flexDirection := some "row",
                                     flexWrap := some "wrap" } }
    else
      { s with blockPanelContent :=
          { s.blockPanelContent with display := none,
                                     flexDirection := none,
                                     flexWrap := none } }
  else
    if tree.blockPanelContentAltFound then
      if containerWidth ≤ 1200 then
        { s with blockPanelContentAlt :=
            { s.blockPanelContentAlt with display := some "flex",
                                          flexDirection := some "row",
                                          flexWrap := some "wrap" } }
      else
        { s with blockPanelContentAlt :=
            { s.blockPanelContentAlt with display := none,
                                          flexDirection := none,
                                          flexWrap := none } }
    else s

/-- Embedding of `applyPositioning`
(src/components/stripo-editor-customized.tsx lines 859 to 1266). When no
shadow root is reachable nothing happens. Otherwise the six sections of
the source body run in source order (min-width, blocks panel, modules
panel, wide panel, narrow panel, block panel content). Every write is
either a set with the important flag or an explicit remove, with values
depending only on the tree and the width. -/
def applyPositioning (tree : PanelTree) (containerWidth : Nat)
    (s : EditorUIState) : EditorUIState :=
  if tree.hasShadowRoot = false then s
  else
    patchBlockPanelContent tree containerWidth
      (patchNarrowPanel tree containerWidth
        (patchWidePanel tree containerWidth
          (patchModulesPanel tree containerWidth
            (patchBlocksPanel tree containerWidth
              (patchMinWidth containerWidth s)))))

/-- Restoration of the modules panel on the mobile to desktop switch
(src/components/stripo-editor-customized.tsx lines 1303 to 1313). -/
def restoreModulesPanel (tree : PanelTree) (s : EditorUIState) : EditorUIState :=
  if tree.modulesPanelFound then
    { s with modulesPanel := { s.modulesPanel with display := none },
             isModulesPanelVisible := true }
  else s

/-- Restoration of the simple panel on the mobile to desktop switch
(src/components/stripo-editor-customized.tsx lines 1315 to 1325). -/
def restoreSimplePanel (tree : PanelTree) (s : EditorUIState) : EditorUIState :=
  if tree.simplePanelQueryFound then
    { s with simplePanel := { s.simplePanel with display := none },
             isSimplePanelVisible := true }
  else s

/-- Restoration of the wide panel on the mobile to desktop switch
(src/components/stripo-editor-customized.tsx lines 1327 to 1337). -/
def restoreWidePanel (tree : PanelTree) (s : EditorUIState) : EditorUIState :=
  if tree.widePanelFound then
    { s with widePanel := { s.widePanel with display := none },
             isWidePanelVisible := true }
  else s

/-- Embedding of the panel restoration block of the resize handler
(src/components/stripo-editor-customized.tsx lines 1298 to 1340): when
switching from mobile to desktop, remove the display override from each
of the three panels the direct queries find and mark them visible, in
source order (modules, simple, wide). -/
def restorePanelsOnDesktop (tree : PanelTree) (s : EditorUIState) : EditorUIState :=
  if tree.hasShadowRoot = false then s
  else
    restoreWidePanel tree (restoreSimplePanel tree (restoreModulesPanel tree s))

/-- Embedding of the ResizeObserver callback
(src/components/stripo-editor-customized.tsx lines 1286 to 1343):
compute the new mobile flag, restore all panels when moving from mobile
to desktop, then reapply the positioning at the new width. Returns the
new previousMobile flag together with the new UI state. -/
def onContainerResize (tree : PanelTree) (wasMobile : Bool) (width : Nat)
    (s : EditorUIState) : Bool × EditorUIState :=
  let mobile := decide (width ≤ 1200)
  let s := if wasMobile && !mobile then restorePanelsOnDesktop tree s else s
  (mobile, applyPositioning tree width s)

/-- Lookup in a filtered store: a kept key looks up as before, a dropped
key looks up to nothing. -/
theorem getItem_filter (p : String → Bool) (store : Store) (key : String) :
    getItem (store.filter fun kv => p kv.1) key =
      if p key then getItem store key else none := by
  induction store with
  | nil => simp [getItem]
  | cons kv rest ih =>
      obtain ⟨k, v⟩ := kv
      by_cases hk : k = key
      · subst hk
        by_cases hpk : p k
        · simp [List.filter_cons, hpk, getItem]
        · simp [List.filter_cons, hpk, getItem, ih]
      · by_cases hpk : p k
        · simp [List.filter_cons, hpk, getItem, hk, ih]
        · simp [List.filter_cons, hpk, getItem, hk, ih]

/-- C10: clearStripoStorage affects exactly the intended keys. With no
window it is a no-op; with clearAll it removes precisely the keys whose
lower cased name contains stripo and preserves the value of every other
key; without clearAll it removes only the given storage key and
preserves every other key. -/
theorem claim_C10_clearStripoStorage_frame (store : Store) (key : String)
    (opts : ClearOptions) (sk : String) :
    clearStripoStorage false opts store = store ∧
    getItem (clearStripoStorage true ⟨sk, true⟩ store) key =
      (if isStripoKey key then none else getItem store key) ∧
    getItem (clearStripoStorage true ⟨sk, false⟩ store) key =
      (if key = sk then none else getItem store key) := by
  refine ⟨rfl, ?_, ?_⟩
  · show getItem (store.filter fun kv => !isStripoKey kv.1) key = _
    rw [getItem_filter (fun x => !isStripoKey x) store key]
    by_cases h : isStripoKey key <;> simp [h]
  · show getItem (removeItem store sk) key = _
    rw [removeItem, getItem_filter (fun x => !decide (x = sk)) store key]
    by_cases h : key = sk <;> simp [h]

/-- C5 counterexample: with an explicit emailId prop and a different id
already stored, the resolution leaves the stored value untouched; the
explicit id is not persisted, contradicting the claim that it overwrites
the prior stored value. -/
theorem claim_C5_counterexample :
    (resolveEmailId (some "prop-id") false true [(STORAGE_KEY, "old-id")]
        "f1" "f2" "f3").1 = some "prop-id" ∧
    (resolveEmailId (some "prop-id") false true [(STORAGE_KEY, "old-id")]
        "f1" "f2" "f3").2 = [(STORAGE_KEY, "old-id")] ∧
    getItem (resolveEmailId (some "prop-id") false true [(STORAGE_KEY, "old-id")]
        "f1" "f2" "f3").2 STORAGE_KEY ≠ some "prop-id" := by
  refine ⟨rfl, rfl, fun hcon => ?_⟩
  have hval : some "old-id" = some "prop-id" := hcon
  simp at hval

/-- C5 amended: a non-empty explicit emailId is used verbatim for the
mount, and the persistent identity store is left entirely unchanged (in
particular the explicit id is not persisted). -/
theorem claim_C5_explicit_id_verbatim_store_unchanged (e : String)
    (he : e.isEmpty = false) (shouldCreate windowDefined : Bool)
    (store : Store) (f1 f2 f3 : String) :
    resolveEmailId (some e) shouldCreate windowDefined store f1 f2 f3 =
      (some e, store) := by
  simp [resolveEmailId, truthy, he]

/-- Witness for the amended C5 statement at a concrete input. -/
theorem claim_C5_witness :
    resolveEmailId (some "prop-id") false true [(STORAGE_KEY, "old-id")]
        "f1" "f2" "f3" = (some "prop-id", [(STORAGE_KEY, "old-id")]) :=
  claim_C5_explicit_id_verbatim_store_unchanged "prop-id" rfl false true
    [(STORAGE_KEY, "old-id")] "f1" "f2" "f3"

/-- C6 counterexample: in the pure new document flow (no explicit id,
shouldCreate false, nothing stored) the generated id is written to the
persistent store, contradicting the claim that the slot stays absent. -/
theorem claim_C6_counterexample :
    getItem (resolveEmailId none false true [] "email-1-abc" "f2" "f3").2
        STORAGE_KEY = some "email-1-abc" ∧
    getItem (resolveEmailId none false true [] "email-1-abc" "f2" "f3").2
        STORAGE_KEY ≠ none := by
  refine ⟨rfl, fun hcon => ?_⟩
  have hval : some "email-1-abc" = (none : Option String) := hcon
  simp at hval

/-- C6 amended: in the pure new document flow with window available the
resolver generates a new identity and persists it immediately; an
ephemeral identity that is not persisted arises only when window is
undefined, in which case the store is unchanged. -/
theorem claim_C6_new_document_flow_persists (store : Store)
    (h : truthy (getItem store STORAGE_KEY) = false) (f1 f2 f3 : String)
    (hf1 : f1.isEmpty = false) :
    resolveEmailId none false true store f1 f2 f3 =
      (some f1, setItem store STORAGE_KEY f1) ∧
    resolveEmailId none false false store f1 f2 f3 = (some f3, store) := by
  constructor
  · have h1 : getOrCreateEmailId true store f1 = (some f1, setItem store STORAGE_KEY f1) := by
      simp only [getOrCreateEmailId]
      simp [h]
    simp [resolveEmailId, h1, truthy, hf1]
  · simp [resolveEmailId, getOrCreateEmailId, truthy, jsOrElse]

/-- Witness for the amended C6 statement at a concrete input. -/
theorem claim_C6_witness :
    resolveEmailId none false true [] "email-1-abc" "f2" "f3" =
      (some "email-1-abc", setItem [] STORAGE_KEY "email-1-abc") :=
  (claim_C6_new_document_flow_persists [] rfl "email-1-abc" "f2" "f3" rfl).1

/-- C7 counterexample: an identity limit error notification is
suppressed, but the persistent identity store entry survives untouched,
contradicting the claim that the entry is removed. -/
theorem claim_C7_counterexample :
    (notificationsError "Template creation limit exceeded" "" [(STORAGE_KEY, "em-1")]
        LoadingState.loaded).1 = NotifResult.suppressedExpected ∧
    (notificationsError "Template creation limit exceeded" "" [(STORAGE_KEY, "em-1")]
        LoadingState.loaded).2.1 = [(STORAGE_KEY, "em-1")] ∧
    getItem (notificationsError "Template creation limit exceeded" ""
        [(STORAGE_KEY, "em-1")] LoadingState.loaded).2.1 STORAGE_KEY ≠ none := by
  refine ⟨by decide, by decide, fun hcon => ?_⟩
  have hval : some "em-1" = (none : Option String) := hcon
  simp at hval

/-- C7 amended: a notification whose message matches the creation limit
or quota substrings is suppressed from the visible notification stream
and the loading state does not change, but the persistent identity store
entry is not removed: the store is left entirely unchanged. -/
theorem claim_C7_limit_error_suppressed_store_kept (message paramsJson : String)
    (store : Store) (ls : LoadingState)
    (h : (strIncludes message "limit" || strIncludes message "exceeded") = true) :
    (notificationsError message paramsJson store ls).1 ≠ NotifResult.forwarded ∧
    (notificationsError message paramsJson store ls).2.1 = store ∧
    (notificationsError message paramsJson store ls).2.2 = ls := by
  simp only [notificationsError]
  split_ifs with h1 h2
  · exact ⟨by simp, rfl, rfl⟩
  · exact ⟨by simp, rfl, rfl⟩
  · exfalso
    apply h2
    rw [Bool.or_eq_true] at h
    rw [Bool.or_eq_true, Bool.or_eq_true]
    rcases h with hl | hex
    · exact Or.inl (Or.inr hl)
    · exact Or.inr hex

/-- Witness for the amended C7 statement at a concrete input. -/
theorem claim_C7_witness :
    (notificationsError "Template creation limit exceeded" "" [(STORAGE_KEY, "em-1")]
        LoadingState.loaded).2.1 = [(STORAGE_KEY, "em-1")] :=
  (claim_C7_limit_error_suppressed_store_kept "Template creation limit exceeded" ""
    [(STORAGE_KEY, "em-1")] LoadingState.loaded rfl).2.1

/-- C9: every non numeric template id (the empty string and the literal
blank included) is answered with a 400 response whose body carries a non
empty error explanation and empty html and css, and the handler never
reaches the remote fetch for such an id. -/
theorem claim_C9_reject_non_numeric (templateId : String)
    (h : isNumericId templateId = false) :
    ∃ body, templateDetailGET templateId = TemplateGetResult.errorResponse 400 body ∧
      body.html = "" ∧ body.css = "" ∧ body.error ≠ "" ∧
      ∀ tid, templateDetailGET templateId ≠ TemplateGetResult.remoteFetch tid := by
  by_cases h1 : templateId = "" ∨ templateId = "blank"
  · refine ⟨⟨"Invalid template ID", none, "", ""⟩, ?_, rfl, rfl, ?_, ?_⟩
    · simp [templateDetailGET, h1]
    · simp
    · intro tid
      simp [templateDetailGET, h1]
  · refine ⟨⟨"Invalid template ID format", some (invalidFormatDetails templateId),
        "", ""⟩, ?_, rfl, rfl, ?_, ?_⟩
    · simp [templateDetailGET, h1, h]
    · simp
    · intro tid
      simp [templateDetailGET, h1, h]

/-- Witness for C9 at the concrete id blank. -/
theorem claim_C9_witness :
    ∃ body, templateDetailGET "blank" = TemplateGetResult.errorResponse 400 body ∧
      body.html = "" ∧ body.css = "" ∧ body.error ≠ "" ∧
      ∀ tid, templateDetailGET "blank" ≠ TemplateGetResult.remoteFetch tid :=
  claim_C9_reject_non_numeric "blank" rfl

/-- A document has no tag with the editor id exactly when the count is
zero. -/
theorem hasScriptTag_eq_false_iff (d : DocState) :
    hasScriptTag d = false ↔ countScriptId d.scriptIds = 0 := by
  obtain ⟨l, g⟩ := d
  show (l.any fun i => i = uiEditorScriptId) = false ↔ countScriptId l = 0
  induction l with
  | nil => simp [countScriptId]
  | cons i rest ih =>
      by_cases hi : i = uiEditorScriptId
      · simp [countScriptId, hi]
      · simpa [countScriptId, hi] using ih

/-- Appending the editor script tag raises the count by one. -/
theorem countScriptId_append_id (l : List String) :
    countScriptId (l ++ [uiEditorScriptId]) = countScriptId l + 1 := by
  induction l with
  | nil => simp [countScriptId]
  | cons i rest ih =>
      show countScriptId (i :: (rest ++ [uiEditorScriptId])) = _
      simp only [countScriptId]
      rw [ih]
      omega

/-- A step on a document that already has the tag changes nothing and
does not inject. -/
theorem loadStripoScriptStep_noop (d : DocState) (h : hasScriptTag d = true) :
    (loadStripoScriptStep d).1 = d ∧
    (loadStripoScriptStep d).2 ≠ LoadScriptAction.injected := by
  unfold loadStripoScriptStep
  rw [h]
  by_cases hg : d.uiEditorGlobal <;> simp [hg]

/-- Running any number of steps on a document that already has the tag
changes nothing and injects nothing. -/
theorem runLoadStripoScript_noop (n : Nat) :
    ∀ d : DocState, hasScriptTag d = true →
      (runLoadStripoScript n d).1 = d ∧
      countInjected (runLoadStripoScript n d).2 = 0 := by
  induction n with
  | zero => intro d _; exact ⟨rfl, rfl⟩
  | succ k ih =>
      intro d hd
      obtain ⟨h1, h2⟩ := loadStripoScriptStep_noop d hd
      have ih2 := ih (loadStripoScriptStep d).1 (by rw [h1]; exact hd)
      simp only [runLoadStripoScript]
      constructor
      · rw [ih2.1, h1]
      · simp only [countInjected, List.countP_cons] at ih2 ⊢
        rw [ih2.2]
        simp [h2]

/-- C8: from a document with no editor script tag, any number of
invocations of the loading step inject at most one script tag with the
stable id, the final document holds at most one such tag, and any
invocation that finds the tag already present performs no insertion (it
either initializes or polls for the global, leaving the document
unchanged). -/
theorem claim_C8_script_injection_exactly_once (n : Nat) (d : DocState)
    (h : countScriptId d.scriptIds = 0) :
    countScriptId (runLoadStripoScript n d).1.scriptIds ≤ 1 ∧
    countInjected (runLoadStripoScript n d).2 ≤ 1 ∧
    (∀ d2 : DocState, hasScriptTag d2 = true →
      (loadStripoScriptStep d2).1 = d2 ∧
      (loadStripoScriptStep d2).2 ≠ LoadScriptAction.injected) := by
  have key : countScriptId (runLoadStripoScript n d).1.scriptIds ≤ 1 ∧
      countInjected (runLoadStripoScript n d).2 ≤ 1 := by
    cases n with
    | zero =>
        simp [runLoadStripoScript, countInjected, h]
    | succ k =>
        have hno : hasScriptTag d = false := (hasScriptTag_eq_false_iff d).mpr h
        have hstep : loadStripoScriptStep d =
            ({ d with scriptIds := d.scriptIds ++ [uiEditorScriptId] },
              LoadScriptAction.injected) := by
          unfold loadStripoScriptStep
          rw [hno]
          simp
        have hcount1 : countScriptId (loadStripoScriptStep d).1.scriptIds = 1 := by
          rw [hstep]
          simpa [countScriptId_append_id] using h
        have htag : hasScriptTag (loadStripoScriptStep d).1 = true := by
          cases hb : hasScriptTag (loadStripoScriptStep d).1 with
          | false =>
              have h0 := (hasScriptTag_eq_false_iff _).mp hb
              rw [hcount1] at h0
              exact absurd h0 one_ne_zero
          | true => rfl
        have hrest := runLoadStripoScript_noop k (loadStripoScriptStep d).1 htag
        simp only [runLoadStripoScript]
        constructor
        · rw [hrest.1]
          omega
        · simp only [countInjected, List.countP_cons] at hrest ⊢
          rw [hrest.2, hstep]
          simp
  exact ⟨key.1, key.2, fun d2 h2 => loadStripoScriptStep_noop d2 h2⟩

/-- Witness for C8: three invocations on an empty document. -/
theorem claim_C8_witness :
    countScriptId (runLoadStripoScript 3 ⟨[], false⟩).1.scriptIds ≤ 1 ∧
    countInjected (runLoadStripoScript 3 ⟨[], false⟩).2 ≤ 1 :=
  ⟨(claim_C8_script_injection_exactly_once 3 ⟨[], false⟩ rfl).1,
   (claim_C8_script_injection_exactly_once 3 ⟨[], false⟩ rfl).2.1⟩

/-- Invariant of the watchdog loop: starting with `count + fuel`
matching the check bound, the loop performs at most `maxRenderChecks`
checks, always exits with the loading state set to loaded, and resolves
timedOut whenever no observation within the bound succeeds. -/
theorem watchdogFrom_spec (obs : Nat → RenderObs) :
    ∀ fuel count, count + fuel = maxRenderChecks →
      (watchdogFrom obs fuel count).checks ≤ maxRenderChecks ∧
      (watchdogFrom obs fuel count).finalState = LoadingState.loaded ∧
      ((∀ n, n < maxRenderChecks →
          ((obs n).hasContainer && renderSuccess (obs n)) = false) →
        (watchdogFrom obs fuel count).outcome = RenderOutcome.timedOut) := by
  intro fuel
  induction fuel with
  | zero =>
      intro count hc
      refine ⟨?_, rfl, fun _ => rfl⟩
      show count ≤ maxRenderChecks
      omega
  | succ f ih =>
      intro count hc
      by_cases hs : ((obs count).hasContainer && renderSuccess (obs count)) = true
      · simp only [watchdogFrom, hs]
        refine ⟨?_, ?_, ?_⟩
        · simp only [if_true]
          show count + 1 ≤ maxRenderChecks
          omega
        · simp
        · intro hall
          have hfalse := hall count (by omega)
          rw [hs] at hfalse
          cases hfalse
      · have hs2 : ((obs count).hasContainer && renderSuccess (obs count)) = false :=
          Bool.eq_false_iff.mpr hs
        by_cases ht : maxRenderChecks ≤ count + 1
        · simp only [watchdogFrom, hs2, ht]
          refine ⟨?_, ?_, fun _ => ?_⟩ <;> simp [ht]
          omega
        · have hrec := ih (count + 1) (by omega)
          simp only [watchdogFrom, hs2]
          simpa [ht] using hrec

/-- C1: the render watchdog terminates within the bound: every run
performs at most 40 checks (40 checks at 500 ms each, a 20 second
bound), every exit sets the loading state to loaded (never error), and
when no observation within the bound ever shows the rendered subtree
the run resolves timedOut while still setting the loading state to
loaded. -/
theorem claim_C1_render_watchdog_bounded (obs : Nat → RenderObs) :
    (runRenderWatchdog obs).checks ≤ maxRenderChecks ∧
    (runRenderWatchdog obs).finalState = LoadingState.loaded ∧
    maxRenderChecks = 40 ∧ renderCheckIntervalMs = 500 ∧
    maxRenderChecks * renderCheckIntervalMs = 20000 ∧
    ((∀ n, n < maxRenderChecks →
        ((obs n).hasContainer && renderSuccess (obs n)) = false) →
      (runRenderWatchdog obs).outcome = RenderOutcome.timedOut ∧
      (runRenderWatchdog obs).finalState = LoadingState.loaded) := by
  have h := watchdogFrom_spec obs maxRenderChecks 0 (by omega)
  exact ⟨h.1, h.2.1, rfl, rfl, rfl, fun hall => ⟨h.2.2 hall, h.2.1⟩⟩

/-- Witness for C1 with an observation stream that never renders: the
subtree never appears, the run times out, and the state is loaded. -/
theorem claim_C1_witness :
    (runRenderWatchdog (fun _ => ⟨true, 0, false⟩)).outcome = RenderOutcome.timedOut ∧
    (runRenderWatchdog (fun _ => ⟨true, 0, false⟩)).finalState = LoadingState.loaded :=
  (claim_C1_render_watchdog_bounded (fun _ => ⟨true, 0, false⟩)).2.2.2.2.2
    (fun _ _ => rfl)

/-- C2: the token refresh callback is cache first. With a cached token
the callback is invoked first (synchronously, before the fetch starts)
with exactly the cached value, and the background fetch only updates the
cache (on failure the cache keeps the old token). With no cached token
the fetch runs first; on success the callback receives exactly the
fetched token, on failure the callback is never invoked. No branch
writes the loading state. -/
theorem claim_C2_token_cache_first (cached : Option String) (fetch : FetchResult) :
    (∀ t, cached = some t →
      (onTokenRefreshRequest cached fetch).head? =
          some (TokenEvent.callbackInvoked t) ∧
      callbackArgs (onTokenRefreshRequest cached fetch) = [t] ∧
      cacheAfter cached (onTokenRefreshRequest cached fetch) =
        (match fetch with
         | FetchResult.ok t2 => some t2
         | FetchResult.failed _ => some t)) ∧
    (cached = none →
      (∀ t, fetch = FetchResult.ok t →
        callbackArgs (onTokenRefreshRequest cached fetch) = [t] ∧
        cacheAfter cached (onTokenRefreshRequest cached fetch) = some t) ∧
      (∀ m, fetch = FetchResult.failed m →
        callbackArgs (onTokenRefreshRequest cached fetch) = [])) ∧
    loadingWrites (onTokenRefreshRequest cached fetch) = [] := by
  cases cached <;> cases fetch <;>
    simp [onTokenRefreshRequest, callbackArgs, cacheAfter, loadingWrites]

/-- Witness for C2 at a concrete cached token and a failing background
fetch: the callback fires synchronously with the cached token. -/
theorem claim_C2_witness :
    (onTokenRefreshRequest (some "tokA") (FetchResult.failed "boom")).head? =
        some (TokenEvent.callbackInvoked "tokA") ∧
    cacheAfter (some "tokA")
        (onTokenRefreshRequest (some "tokA") (FetchResult.failed "boom")) =
      some "tokA" :=
  ⟨((claim_C2_token_cache_first (some "tokA") (FetchResult.failed "boom")).1
      "tokA" rfl).1,
   ((claim_C2_token_cache_first (some "tokA") (FetchResult.failed "boom")).1
      "tokA" rfl).2.2⟩

/-- A later min-width write fully overwrites an earlier one. -/
theorem minWidth_overwrite (w1 w2 : Nat) (s : EditorUIState) :
    patchMinWidth w1 (patchMinWidth w2 s) = patchMinWidth w1 s := by
  simp only [patchMinWidth]
  split_ifs <;> rfl

/-- A later blocks panel pass fully overwrites an earlier one on the
same tree: every branch writes a fixed field set with values depending
only on the tree and the width. -/
theorem blocks_overwrite (tree : PanelTree) (w1 w2 : Nat) (s : EditorUIState) :
    patchBlocksPanel tree w1 (patchBlocksPanel tree w2 s) = patchBlocksPanel tree w1 s := by
  simp only [patchBlocksPanel, applyResponsiveStyling]
  split_ifs <;> rfl

/-- A later modules panel pass fully overwrites an earlier one. -/
theorem modules_overwrite (tree : PanelTree) (w1 w2 : Nat) (s : EditorUIState) :
    patchModulesPanel tree w1 (patchModulesPanel tree w2 s) = patchModulesPanel tree w1 s := by
  simp only [patchModulesPanel, applyResponsiveStyling]
  split_ifs <;> rfl

/-- A later wide panel pass fully overwrites an earlier one. -/
theorem wide_overwrite (tree : PanelTree) (w1 w2 : Nat) (s : EditorUIState) :
    patchWidePanel tree w1 (patchWidePanel tree w2 s) = patchWidePanel tree w1 s := by
  simp only [patchWidePanel]
  split_ifs <;> rfl

/-- A later narrow panel pass fully overwrites an earlier one. -/
theorem narrow_overwrite (tree : PanelTree) (w1 w2 : Nat) (s : EditorUIState) :
    patchNarrowPanel tree w1 (patchNarrowPanel tree w2 s) = patchNarrowPanel tree w1 s := by
  simp only [patchNarrowPanel]
  split_ifs <;> rfl

/-- A later block panel content pass fully overwrites an earlier one. -/
theorem bpc_overwrite (tree : PanelTree) (w1 w2 : Nat) (s : EditorUIState) :
    patchBlockPanelContent tree w1 (patchBlockPanelContent tree w2 s) =
      patchBlockPanelContent tree w1 s := by
  simp only [patchBlockPanelContent]
  split_ifs <;> rfl

/-- The min-width section and the blocks panel section touch disjoint
state and commute. -/
theorem minWidth_blocks_comm (tree : PanelTree) (w1 w2 : Nat) (s : EditorUIState) :
    patchMinWidth w1 (patchBlocksPanel tree w2 s) =
      patchBlocksPanel tree w2 (patchMinWidth w1 s) := by
  simp only [patchMinWidth, patchBlocksPanel, applyResponsiveStyling]
  split_ifs <;> rfl

/-- The min-width section and the modules panel section commute. -/
theorem minWidth_modules_comm (tree : PanelTree) (w1 w2 : Nat) (s : EditorUIState) :
    patchMinWidth w1 (patchModulesPanel tree w2 s) =
      patchModulesPanel tree w2 (patchMinWidth w1 s) := by
  simp only [patchMinWidth, patchModulesPanel, applyResponsiveStyling]
  split_ifs <;> rfl

/-- The min-width section and the wide panel section commute. -/
theorem minWidth_wide_comm (tree : PanelTree) (w1 w2 : Nat) (s : EditorUIState) :
    patchMinWidth w1 (patchWidePanel tree w2 s) =
      patchWidePanel tree w2 (patchMinWidth w1 s) := by
  simp only [patchMinWidth, patchWidePanel]
  split_ifs <;> rfl

/-- The min-width section and the narrow panel section commute. -/
theorem minWidth_narrow_comm (tree : PanelTree) (w1 w2 : Nat) (s : EditorUIState) :
    patchMinWidth w1 (patchNarrowPanel tree w2 s) =
      patchNarrowPanel tree w2 (patchMinWidth w1 s) := by
  simp only [patchMinWidth, patchNarrowPanel]
  split_ifs <;> rfl

/-- The min-width section and the block panel content section commute. -/
theorem minWidth_bpc_comm (tree : PanelTree) (w1 w2 : Nat) (s : EditorUIState) :
    patchMinWidth w1 (patchBlockPanelContent tree w2 s) =
      patchBlockPanelContent tree w2 (patchMinWidth w1 s) := by
  simp only [patchMinWidth, patchBlockPanelContent]
  split_ifs <;> rfl

/-- The blocks panel section and the modules panel section commute. -/
theorem blocks_modules_comm (tree : PanelTree) (w1 w2 : Nat) (s : EditorUIState) :
    patchBlocksPanel tree w1 (patchModulesPanel tree w2 s) =
      patchModulesPanel tree w2 (patchBlocksPanel tree w1 s) := by
  simp only [patchBlocksPanel, patchModulesPanel, applyResponsiveStyling]
  split_ifs <;> rfl

/-- The blocks panel section and the wide panel section commute. -/
theorem blocks_wide_comm (tree : PanelTree) (w1 w2 : Nat) (s : EditorUIState) :
    patchBlocksPanel tree w1 (patchWidePanel tree w2 s) =
      patchWidePanel tree w2 (patchBlocksPanel tree w1 s) := by
  simp only [patchBlocksPanel, patchWidePanel, applyResponsiveStyling]
  split_ifs <;> rfl

/-- The blocks panel section and the narrow panel section commute. -/
theorem blocks_narrow_comm (tree : PanelTree) (w1 w2 : Nat) (s : EditorUIState) :
    patchBlocksPanel tree w1 (patchNarrowPanel tree w2 s) =
      patchNarrowPanel tree w2 (patchBlocksPanel tree w1 s) := by
  simp only [patchBlocksPanel, patchNarrowPanel, applyResponsiveStyling]
  split_ifs <;> rfl

/-- The blocks panel section and the block panel content section
commute. -/
theorem blocks_bpc_comm (tree : PanelTree) (w1 w2 : Nat) (s : EditorUIState) :
    patchBlocksPanel tree w1 (patchBlockPanelContent tree w2 s) =
      patchBlockPanelContent tree w2 (patchBlocksPanel tree w1 s) := by
  simp only [patchBlocksPanel, patchBlockPanelContent, applyResponsiveStyling]
  split_ifs <;> rfl

/-- The modules panel section and the wide panel section commute. -/
theorem modules_wide_comm (tree : PanelTree) (w1 w2 : Nat) (s : EditorUIState) :
    patchModulesPanel tree w1 (patchWidePanel tree w2 s) =
      patchWidePanel tree w2 (patchModulesPanel tree w1 s) := by
  simp only [patchModulesPanel, patchWidePanel, applyResponsiveStyling]
  split_ifs <;> rfl

/-- The modules panel section and the narrow panel section commute. -/
theorem modules_narrow_comm (tree : PanelTree) (w1 w2 : Nat) (s : EditorUIState) :
    patchModulesPanel tree w1 (patchNarrowPanel tree w2 s) =
      patchNarrowPanel tree w2 (patchModulesPanel tree w1 s) := by
  simp only [patchModulesPanel, patchNarrowPanel, applyResponsiveStyling]
  split_ifs <;> rfl

/-- The modules panel section and the block panel content section
commute. -/
theorem modules_bpc_comm (tree : PanelTree) (w1 w2 : Nat) (s : EditorUIState) :
    patchModulesPanel tree w1 (patchBlockPanelContent tree w2 s) =
      patchBlockPanelContent tree w2 (patchModulesPanel tree w1 s) := by
  simp only [patchModulesPanel, patchBlockPanelContent, applyResponsiveStyling]
  split_ifs <;> rfl

/-- The wide panel section and the narrow panel section commute. -/
theorem wide_narrow_comm (tree : PanelTree) (w1 w2 : Nat) (s : EditorUIState) :
    patchWidePanel tree w1 (patchNarrowPanel tree w2 s) =
      patchNarrowPanel tree w2 (patchWidePanel tree w1 s) := by
  simp only [patchWidePanel, patchNarrowPanel]
  split_ifs <;> rfl

/-- The wide panel section and the block panel content section
commute. -/
theorem wide_bpc_comm (tree : PanelTree) (w1 w2 : Nat) (s : EditorUIState) :
    patchWidePanel tree w1 (patchBlockPanelContent tree w2 s) =
      patchBlockPanelContent tree w2 (patchWidePanel tree w1 s) := by
  simp only [patchWidePanel, patchBlockPanelContent]
  split_ifs <;> rfl

/-- The narrow panel section and the block panel content section
commute. -/
theorem narrow_bpc_comm (tree : PanelTree) (w1 w2 : Nat) (s : EditorUIState) :
    patchNarrowPanel tree w1 (patchBlockPanelContent tree w2 s) =
      patchBlockPanelContent tree w2 (patchNarrowPanel tree w1 s) := by
  simp only [patchNarrowPanel, patchBlockPanelContent]
  split_ifs <;> rfl

/-- The min-width section commutes with the modules panel
restoration. -/
theorem minWidth_restoreModules_comm (tree : PanelTree) (w : Nat) (s : EditorUIState) :
    patchMinWidth w (restoreModulesPanel tree s) =
      restoreModulesPanel tree (patchMinWidth w s) := by
  simp only [patchMinWidth, restoreModulesPanel]
  split_ifs <;> rfl

/-- The min-width section commutes with the simple panel restoration. -/
theorem minWidth_restoreSimple_comm (tree : PanelTree) (w : Nat) (s : EditorUIState) :
    patchMinWidth w (restoreSimplePanel tree s) =
      restoreSimplePanel tree (patchMinWidth w s) := by
  simp only [patchMinWidth, restoreSimplePanel]
  split_ifs <;> rfl

/-- The min-width section commutes with the wide panel restoration. -/
theorem minWidth_restoreWide_comm (tree : PanelTree) (w : Nat) (s : EditorUIState) :
    patchMinWidth w (restoreWidePanel tree s) =
      restoreWidePanel tree (patchMinWidth w s) := by
  simp only [patchMinWidth, restoreWidePanel]
  split_ifs <;> rfl

/-- The blocks panel section commutes with the modules panel
restoration. -/
theorem blocks_restoreModules_comm (tree : PanelTree) (w : Nat) (s : EditorUIState) :
    patchBlocksPanel tree w (restoreModulesPanel tree s) =
      restoreModulesPanel tree (patchBlocksPanel tree w s) := by
  simp only [patchBlocksPanel, restoreModulesPanel, applyResponsiveStyling]
  split_ifs <;> rfl

/-- The blocks panel section commutes with the wide panel
restoration. -/
theorem blocks_restoreWide_comm (tree : PanelTree) (w : Nat) (s : EditorUIState) :
    patchBlocksPanel tree w (restoreWidePanel tree s) =
      restoreWidePanel tree (patchBlocksPanel tree w s) := by
  simp only [patchBlocksPanel, restoreWidePanel, applyResponsiveStyling]
  split_ifs <;> rfl

/-- The modules panel section commutes with the wide panel
restoration. -/
theorem modules_restoreWide_comm (tree : PanelTree) (w : Nat) (s : EditorUIState) :
    patchModulesPanel tree w (restoreWidePanel tree s) =
      restoreWidePanel tree (patchModulesPanel tree w s) := by
  simp only [patchModulesPanel, restoreWidePanel, applyResponsiveStyling]
  split_ifs <;> rfl

/-- When the direct simple panel query only succeeds on trees where the
blocks panel walk also succeeds, the blocks panel section fully
overwrites the simple panel restoration. -/
theorem blocks_restoreSimple_absorb (tree : PanelTree)
    (hq : tree.simplePanelQueryFound = true →
      tree.blocksPanelFound = true ∧ findSimplePanelUp tree.ancestorTags 0 = true)
    (w : Nat) (s : EditorUIState) :
    patchBlocksPanel tree w (restoreSimplePanel tree s) =
      patchBlocksPanel tree w s := by
  by_cases hsq : tree.simplePanelQueryFound = true
  · obtain ⟨hb, hwalk⟩ := hq hsq
    simp only [patchBlocksPanel, restoreSimplePanel, applyResponsiveStyling, hsq, hb, hwalk]
    split_ifs <;> rfl
  · have hsq2 : tree.simplePanelQueryFound = false := by
      cases hv : tree.simplePanelQueryFound
      · rfl
      · exact absurd hv hsq
    simp only [restoreSimplePanel, hsq2]
    simp

/-- The modules panel section fully overwrites the modules panel
restoration. -/
theorem modules_restoreModules_absorb (tree : PanelTree) (w : Nat) (s : EditorUIState) :
    patchModulesPanel tree w (restoreModulesPanel tree s) =
      patchModulesPanel tree w s := by
  simp only [patchModulesPanel, restoreModulesPanel, applyResponsiveStyling]
  split_ifs <;> rfl

/-- The wide panel section fully overwrites the wide panel
restoration. -/
theorem wide_restoreWide_absorb (tree : PanelTree) (w : Nat) (s : EditorUIState) :
    patchWidePanel tree w (restoreWidePanel tree s) = patchWidePanel tree w s := by
  simp only [patchWidePanel, restoreWidePanel]
  split_ifs <;> rfl

set_option maxHeartbeats 1000000 in
/-- One application of the patcher absorbs an immediately preceding one
at any width on the same tree: the sections commute pairwise and each
section overwrites its own earlier pass. -/
theorem applyPositioning_overwrite (tree : PanelTree) (w1 w2 : Nat) (s : EditorUIState) :
    applyPositioning tree w1 (applyPositioning tree w2 s) =
      applyPositioning tree w1 s := by
  by_cases hsr : tree.hasShadowRoot = false
  · simp [applyPositioning, hsr]
  · simp only [applyPositioning, if_neg hsr]
    simp only [minWidth_blocks_comm, minWidth_modules_comm, minWidth_wide_comm,
      minWidth_narrow_comm, minWidth_bpc_comm, blocks_modules_comm, blocks_wide_comm,
      blocks_narrow_comm, blocks_bpc_comm, modules_wide_comm, modules_narrow_comm,
      modules_bpc_comm, wide_narrow_comm, wide_bpc_comm, narrow_bpc_comm,
      minWidth_overwrite, blocks_overwrite, modules_overwrite, wide_overwrite,
      narrow_overwrite, bpc_overwrite]

/-- C3: the patcher is idempotent. At any container width and on any
tree, any number of repeated invocations leaves exactly the state of a
single invocation: every target property is fully determined by a set
with the important flag or an explicit remove, so no style value
accumulates. -/
theorem claim_C3_applyPositioning_idempotent (tree : PanelTree) (w : Nat)
    (s : EditorUIState) (n : Nat) :
    (applyPositioning tree w)^[n] (applyPositioning tree w s) =
      applyPositioning tree w s := by
  induction n with
  | zero => rfl
  | succ k ih =>
      rw [Function.iterate_succ_apply, applyPositioning_overwrite, ih]

/-- The block panel content section does not touch the ui-editor
style. -/
theorem bpc_frame_uiEditor (tree : PanelTree) (w : Nat) (s : EditorUIState) :
    (patchBlockPanelContent tree w s).uiEditor = s.uiEditor := by
  simp only [patchBlockPanelContent]
  split_ifs <;> rfl

/-- The block panel content section does not touch the simple panel
style. -/
theorem bpc_frame_simplePanel (tree : PanelTree) (w : Nat) (s : EditorUIState) :
    (patchBlockPanelContent tree w s).simplePanel = s.simplePanel := by
  simp only [patchBlockPanelContent]
  split_ifs <;> rfl

/-- The block panel content section does not touch the modules panel
style. -/
theorem bpc_frame_modulesPanel (tree : PanelTree) (w : Nat) (s : EditorUIState) :
    (patchBlockPanelContent tree w s).modulesPanel = s.modulesPanel := by
  simp only [patchBlockPanelContent]
  split_ifs <;> rfl

/-- The block panel content section does not touch the wide panel
style. -/
theorem bpc_frame_widePanel (tree : PanelTree) (w : Nat) (s : EditorUIState) :
    (patchBlockPanelContent tree w s).widePanel = s.widePanel := by
  simp only [patchBlockPanelContent]
  split_ifs <;> rfl

/-- The block panel content section does not touch the narrow panel
style. -/
theorem bpc_frame_narrowPanel (tree : PanelTree) (w : Nat) (s : EditorUIState) :
    (patchBlockPanelContent tree w s).narrowPanel = s.narrowPanel := by
  simp only [patchBlockPanelContent]
  split_ifs <;> rfl

/-- The block panel content section does not touch the simple panel
visibility flag. -/
theorem bpc_frame_visSimple (tree : PanelTree) (w : Nat) (s : EditorUIState) :
    (patchBlockPanelContent tree w s).isSimplePanelVisible = s.isSimplePanelVisible := by
  simp only [patchBlockPanelContent]
  split_ifs <;> rfl

/-- The block panel content section does not touch the modules panel
visibility flag. -/
theorem bpc_frame_visModules (tree : PanelTree) (w : Nat) (s : EditorUIState) :
    (patchBlockPanelContent tree w s).isModulesPanelVisible = s.isModulesPanelVisible := by
  simp only [patchBlockPanelContent]
  split_ifs <;> rfl

/-- The block panel content section does not touch the wide panel
visibility flag. -/
theorem bpc_frame_visWide (tree : PanelTree) (w : Nat) (s : EditorUIState) :
    (patchBlockPanelContent tree w s).isWidePanelVisible = s.isWidePanelVisible := by
  simp only [patchBlockPanelContent]
  split_ifs <;> rfl

/-- The narrow panel section does not touch the ui-editor style. -/
theorem narrow_frame_uiEditor (tree : PanelTree) (w : Nat) (s : EditorUIState) :
    (patchNarrowPanel tree w s).uiEditor = s.uiEditor := by
  simp only [patchNarrowPanel]
  split_ifs <;> rfl

/-- The narrow panel section does not touch the simple panel style. -/
theorem narrow_frame_simplePanel (tree : PanelTree) (w : Nat) (s : EditorUIState) :
    (patchNarrowPanel tree w s).simplePanel = s.simplePanel := by
  simp only [patchNarrowPanel]
  split_ifs <;> rfl

/-- The narrow panel section does not touch the modules panel style. -/
theorem narrow_frame_modulesPanel (tree : PanelTree) (w : Nat) (s : EditorUIState) :
    (patchNarrowPanel tree w s).modulesPanel = s.modulesPanel := by
  simp only [patchNarrowPanel]
  split_ifs <;> rfl

/-- The narrow panel section does not touch the wide panel style. -/
theorem narrow_frame_widePanel (tree : PanelTree) (w : Nat) (s : EditorUIState) :
    (patchNarrowPanel tree w s).widePanel = s.widePanel := by
  simp only [patchNarrowPanel]
  split_ifs <;> rfl

/-- The narrow panel section does not touch the simple panel visibility
flag. -/
theorem narrow_frame_visSimple (tree : PanelTree) (w : Nat) (s : EditorUIState) :
    (patchNarrowPanel tree w s).isSimplePanelVisible = s.isSimplePanelVisible := by
  simp only [patchNarrowPanel]
  split_ifs <;> rfl

/-- The narrow panel section does not touch the modules panel
visibility flag. -/
theorem narrow_frame_visModules (tree : PanelTree) (w : Nat) (s : EditorUIState) :
    (patchNarrowPanel tree w s).isModulesPanelVisible = s.isModulesPanelVisible := by
  simp only [patchNarrowPanel]
  split_ifs <;> rfl

/-- The narrow panel section does not touch the wide panel visibility
flag. -/
theorem narrow_frame_visWide (tree : PanelTree) (w : Nat) (s : EditorUIState) :
    (patchNarrowPanel tree w s).isWidePanelVisible = s.isWidePanelVisible := by
  simp only [patchNarrowPanel]
  split_ifs <;> rfl

/-- The wide panel section does not touch the ui-editor style. -/
theorem wide_frame_uiEditor (tree : PanelTree) (w : Nat) (s : EditorUIState) :
    (patchWidePanel tree w s).uiEditor = s.uiEditor := by
  simp only [patchWidePanel]
  split_ifs <;> rfl

/-- The wide panel section does not touch the simple panel style. -/
theorem wide_frame_simplePanel (tree : PanelTree) (w : Nat) (s : EditorUIState) :
    (patchWidePanel tree w s).simplePanel = s.simplePanel := by
  simp only [patchWidePanel]
  split_ifs <;> rfl

/-- The wide panel section does not touch the modules panel style. -/
theorem wide_frame_modulesPanel (tree : PanelTree) (w : Nat) (s : EditorUIState) :
    (patchWidePanel tree w s).modulesPanel = s.modulesPanel := by
  simp only [patchWidePanel]
  split_ifs <;> rfl

/-- The wide panel section does not touch the simple panel visibility
flag. -/
theorem wide_frame_visSimple (tree : PanelTree) (w : Nat) (s : EditorUIState) :
    (patchWidePanel tree w s).isSimplePanelVisible = s.isSimplePanelVisible := by
  simp only [patchWidePanel]
  split_ifs <;> rfl

/-- The wide panel section does not touch the modules panel visibility
flag. -/
theorem wide_frame_visModules (tree : PanelTree) (w : Nat) (s : EditorUIState) :
    (patchWidePanel tree w s).isModulesPanelVisible = s.isModulesPanelVisible := by
  simp only [patchWidePanel]
  split_ifs <;> rfl

/-- The modules panel section does not touch the ui-editor style. -/
theorem modules_frame_uiEditor (tree : PanelTree) (w : Nat) (s : EditorUIState) :
    (patchModulesPanel tree w s).uiEditor = s.uiEditor := by
  simp only [patchModulesPanel]
  split_ifs <;> rfl

/-- The modules panel section does not touch the simple panel style. -/
theorem modules_frame_simplePanel (tree : PanelTree) (w : Nat) (s : EditorUIState) :
    (patchModulesPanel tree w s).simplePanel = s.simplePanel := by
  simp only [patchModulesPanel]
  split_ifs <;> rfl

/-- The modules panel section does not touch the simple panel
visibility flag. -/
theorem modules_frame_visSimple (tree : PanelTree) (w : Nat) (s : EditorUIState) :
    (patchModulesPanel tree w s).isSimplePanelVisible = s.isSimplePanelVisible := by
  simp only [patchModulesPanel]
  split_ifs <;> rfl

/-- The blocks panel section does not touch the ui-editor style. -/
theorem blocks_frame_uiEditor (tree : PanelTree) (w : Nat) (s : EditorUIState) :
    (patchBlocksPanel tree w s).uiEditor = s.uiEditor := by
  simp only [patchBlocksPanel]
  split_ifs <;> rfl

/-- At a wide width the min-width override is removed. -/
theorem minWidth_value_wide (w : Nat) (hw : ¬ w ≤ 1200) (s : EditorUIState) :
    (patchMinWidth w s).uiEditor.minWidth = none := by
  simp only [patchMinWidth, if_neg hw]

/-- At a wide width, on a tree where the walk finds the simple panel,
the blocks panel section leaves exactly the horizontal translation, no
width override, no display override, and a visible panel. -/
theorem blocks_value_wide (tree : PanelTree) (w : Nat) (hw : ¬ w ≤ 1200)
    (hb : tree.blocksPanelFound = true)
    (hwalk : findSimplePanelUp tree.ancestorTags 0 = true) (s : EditorUIState) :
    (patchBlocksPanel tree w s).simplePanel.transform = some "translateX(10px)" ∧
    (patchBlocksPanel tree w s).simplePanel.width = none ∧
    (patchBlocksPanel tree w s).simplePanel.display = none ∧
    (patchBlocksPanel tree w s).isSimplePanelVisible = true := by
  simp only [patchBlocksPanel, applyResponsiveStyling, hb, hwalk, if_neg hw]
  simp

/-- At a wide width the modules panel carries exactly the horizontal
translation, no width override, no display override, and is visible. -/
theorem modules_value_wide (tree : PanelTree) (w : Nat) (hw : ¬ w ≤ 1200)
    (hm : tree.modulesPanelFound = true) (s : EditorUIState) :
    (patchModulesPanel tree w s).modulesPanel.transform = some "translateX(10px)" ∧
    (patchModulesPanel tree w s).modulesPanel.width = none ∧
    (patchModulesPanel tree w s).modulesPanel.display = none ∧
    (patchModulesPanel tree w s).isModulesPanelVisible = true := by
  simp only [patchModulesPanel, applyResponsiveStyling, hm, if_neg hw]
  simp

/-- At a wide width the wide panel display override is removed and the
panel marked visible. -/
theorem wide_value_wide (tree : PanelTree) (w : Nat) (hw : ¬ w ≤ 1200)
    (hp : tree.widePanelFound = true) (s : EditorUIState) :
    (patchWidePanel tree w s).widePanel.display = none ∧
    (patchWidePanel tree w s).isWidePanelVisible = true := by
  simp only [patchWidePanel, hp, if_neg hw]
  simp

/-- At a wide width all three flex overrides on the narrow panel are
removed. -/
theorem narrow_value_wide (tree : PanelTree) (w : Nat) (hw : ¬ w ≤ 1200)
    (hn : tree.narrowPanelFound = true) (ht : 0 < tree.thumbCount) (s : EditorUIState) :
    (patchNarrowPanel tree w s).narrowPanel.display = none ∧
    (patchNarrowPanel tree w s).narrowPanel.flexDirection = none ∧
    (patchNarrowPanel tree w s).narrowPanel.flexWrap = none := by
  simp only [patchNarrowPanel, hn, ht, if_neg hw]
  simp [ht]

set_option maxHeartbeats 2000000 in
/-- C4: mounting at width 1300, resizing to 1100 and back to 1300
leaves exactly the wide state of a single application at 1300: the
compact overrides (vertical translation, pinned widths, flex layout,
hidden panels) are removed rather than set to other values, hidden
panels are restored, and only the horizontal 10px translation remains.
The mobile to desktop transition runs the restoration block before the
patch, which proactively restores any panel hidden while compact. The
hypothesis states the structural coherence of the shadow subtree: when
the direct simple panel query succeeds, the blocks panel walk reaches
the same panel. -/
theorem claim_C4_breakpoint_round_trip (tree : PanelTree) (s : EditorUIState)
    (hq : tree.simplePanelQueryFound = true →
      tree.blocksPanelFound = true ∧ findSimplePanelUp tree.ancestorTags 0 = true) :
    (onContainerResize tree
        (onContainerResize tree false 1100 (applyPositioning tree 1300 s)).1 1300
        (onContainerResize tree false 1100 (applyPositioning tree 1300 s)).2).2 =
      applyPositioning tree 1300 s ∧
    (tree.hasShadowRoot = true →
      (applyPositioning tree 1300 s).uiEditor.minWidth = none ∧
      (tree.blocksPanelFound = true → findSimplePanelUp tree.ancestorTags 0 = true →
        (applyPositioning tree 1300 s).simplePanel.transform = some "translateX(10px)" ∧
        (applyPositioning tree 1300 s).simplePanel.width = none ∧
        (applyPositioning tree 1300 s).simplePanel.display = none ∧
        (applyPositioning tree 1300 s).isSimplePanelVisible = true) ∧
      (tree.modulesPanelFound = true →
        (applyPositioning tree 1300 s).modulesPanel.transform = some "translateX(10px)" ∧
        (applyPositioning tree 1300 s).modulesPanel.width = none ∧
        (applyPositioning tree 1300 s).modulesPanel.display = none ∧
        (applyPositioning tree 1300 s).isModulesPanelVisible = true) ∧
      (tree.widePanelFound = true →
        (applyPositioning tree 1300 s).widePanel.display = none ∧
        (applyPositioning tree 1300 s).isWidePanelVisible = true) ∧
      (tree.narrowPanelFound = true → 0 < tree.thumbCount →
        (applyPositioning tree 1300 s).narrowPanel.display = none ∧
        (applyPositioning tree 1300 s).narrowPanel.flexDirection = none ∧
        (applyPositioning tree 1300 s).narrowPanel.flexWrap = none)) := by
  constructor
  · show (onContainerResize tree _ 1300 _).2 = _
    simp only [onContainerResize]
    norm_num
    by_cases hsr : tree.hasShadowRoot = false
    · simp [applyPositioning, restorePanelsOnDesktop, hsr]
    · simp only [applyPositioning, restorePanelsOnDesktop, if_neg hsr]
      simp only [minWidth_restoreModules_comm, minWidth_restoreSimple_comm,
        minWidth_restoreWide_comm, blocks_restoreModules_comm, blocks_restoreWide_comm,
        modules_restoreWide_comm, blocks_restoreSimple_absorb tree hq,
        modules_restoreModules_absorb, wide_restoreWide_absorb,
        minWidth_blocks_comm, minWidth_modules_comm, minWidth_wide_comm,
        minWidth_narrow_comm, minWidth_bpc_comm, blocks_modules_comm, blocks_wide_comm,
        blocks_narrow_comm, blocks_bpc_comm, modules_wide_comm, modules_narrow_comm,
        modules_bpc_comm, wide_narrow_comm, wide_bpc_comm, narrow_bpc_comm,
        minWidth_overwrite, blocks_overwrite, modules_overwrite, wide_overwrite,
        narrow_overwrite, bpc_overwrite]
  · intro hsr
    have hsr2 : ¬ tree.hasShadowRoot = false := by simp [hsr]
    have hA : applyPositioning tree 1300 s =
        patchBlockPanelContent tree 1300 (patchNarrowPanel tree 1300
          (patchWidePanel tree 1300 (patchModulesPanel tree 1300
            (patchBlocksPanel tree 1300 (patchMinWidth 1300 s))))) := by
      simp only [applyPositioning, if_neg hsr2]
    have hw : ¬ (1300 : Nat) ≤ 1200 := by norm_num
    refine ⟨?_, ?_, ?_, ?_, ?_⟩
    · rw [hA, bpc_frame_uiEditor, narrow_frame_uiEditor, wide_frame_uiEditor,
        modules_frame_uiEditor, blocks_frame_uiEditor]
      exact minWidth_value_wide 1300 hw _
    · intro hb hwalk
      rw [hA, bpc_frame_simplePanel, narrow_frame_simplePanel, wide_frame_simplePanel,
        modules_frame_simplePanel, bpc_frame_visSimple, narrow_frame_visSimple,
        wide_frame_visSimple, modules_frame_visSimple]
      exact blocks_value_wide tree 1300 hw hb hwalk _
    · intro hm
      rw [hA, bpc_frame_modulesPanel, narrow_frame_modulesPanel, wide_frame_modulesPanel,
        bpc_frame_visModules, narrow_frame_visModules, wide_frame_visModules]
      exact modules_value_wide tree 1300 hw hm _
    · intro hp
      rw [hA, bpc_frame_widePanel, narrow_frame_widePanel, bpc_frame_visWide,
        narrow_frame_visWide]
      exact wide_value_wide tree 1300 hw hp _
    · intro hn ht
      rw [hA, bpc_frame_narrowPanel]
      exact narrow_value_wide tree 1300 hw hn ht _

/-- A coherent concrete shadow tree for the round trip witness: every
panel present, the simple panel one ancestor above the blocks panel,
three block thumbs. -/
def demoTree : PanelTree :=
  ⟨true, true, ["ue-ui-simple-panel"], true, true, true, true, 3, true, false⟩

/-- A concrete starting state for the round trip witness: empty inline
styles and all panels marked hidden. -/
def demoState : EditorUIState :=
  ⟨{}, {}, {}, {}, {}, {}, {}, {}, false, false, false⟩

/-- Witness for C4 at the concrete tree and state: the 1300 to 1100 to
1300 resize pipeline lands exactly on the single application at 1300. -/
theorem claim_C4_witness :
    (onContainerResize demoTree
        (onContainerResize demoTree false 1100 (applyPositioning demoTree 1300 demoState)).1 1300
        (onContainerResize demoTree false 1100 (applyPositioning demoTree 1300 demoState)).2).2 =
      applyPositioning demoTree 1300 demoState :=
  (claim_C4_breakpoint_round_trip demoTree demoState (fun _ => ⟨rfl, rfl⟩)).1

end StripoEditor
